import Mathlib

/-!
Shallow embedding of the delegation core of go-arlo/go-arlo-wallet
(solana-wallet-delegation: DelegationService together with the slice of
PolicyService and of the lib/types and lib/constants modules that it uses).

Conventions of the embedding:
* JS numbers that the service only adds and compares are modelled as Int;
  clock readings are passed in explicitly: nowMs models Date.now() in
  milliseconds and nowSec models Math.floor(Date.now() / 1000).
* The private activeDelegations Map is modelled as an insertion-ordered
  association list with unique keys (the Map invariant), with get / set /
  delete operations mirroring the JS Map.
* Remote calls (Turnkey API client and PolicyService) are modelled by a
  RemoteEnv describing each call outcome, and every operation returns the
  ordered trace of remote calls it issued; a failing API client call
  models the awaited promise rejecting, which DelegationService catches,
  while PolicyService.deletePolicy catches its own failure and returns a
  boolean that DelegationService ignores.
* Single quotes inside emitted condition strings are written as the
  escape \x27.
-/

namespace ArloWallet

/-- Permission.action from lib/types (index.ts). -/
inductive PermissionAction
  | TRANSFER
  | SWAP
  | STAKE
  | MINT_NFT
  | BURN
  | DELEGATE
deriving DecidableEq, Repr

/-- Permission.targetAccount from lib/types. -/
inductive TargetAccount
  | TRADING
  | LONG_TERM_STORAGE
  | ANY
deriving DecidableEq, Repr

/-- Permission from lib/types. -/
structure Permission where
  action : PermissionAction
  targetAccount : Option TargetAccount
deriving DecidableEq, Repr

/-- TransactionLimits from lib/types; monthly is optional. -/
structure TransactionLimits where
  perTransaction : Int
  daily : Int
  weekly : Int
  monthly : Option Int
deriving DecidableEq, Repr

/-- DelegationScope from lib/types. -/
structure DelegationScope where
  permissions : List Permission
  programs : List String
  tokens : List String
  limits : TransactionLimits
  duration : Int
deriving DecidableEq, Repr

/-- The quotaUsed record inside DelegatedKey. -/
structure QuotaUsed where
  daily : Int
  weekly : Int
  monthly : Int
deriving DecidableEq, Repr

/-- DelegatedKey from lib/types; expiresAt is a JS Date modelled by its
millisecond epoch value. -/
structure DelegatedKey where
  id : String
  policyId : String
  agentId : String
  publicKey : String
  permissions : List Permission
  expiresAt : Int
  isActive : Bool
  quotaUsed : QuotaUsed
deriving DecidableEq, Repr

/-- DelegationRequest from lib/types (fields the service can see; requestedAt
is a Date modelled by its millisecond epoch value and is never read by
DelegationService). -/
structure DelegationRequest where
  id : String
  agentId : String
  agentName : Option String
  scope : DelegationScope
  requestedAt : Int
deriving DecidableEq, Repr

/-- The status field of the DelegationResponse returned by
processDelegationRequest. -/
inductive DelegationStatus
  | APPROVED
  | REJECTED
deriving DecidableEq, Repr

/-- DelegationResponse from DelegationService.ts. -/
structure DelegationResponse where
  status : DelegationStatus
  reason : Option String
  policyKeyId : Option String
  expiresAt : Option Int
deriving DecidableEq, Repr

/-! ### Condition compiler (DelegationService.buildConditionFromScope) -/

/-- The JS template wrapping an identifier in single quotes. -/
def quoteId (p : String) : String := "\x27" ++ p ++ "\x27"

/-- The per-permission condition produced by the switch inside
buildConditionFromScope; unknown actions fall to the default branch. -/
def permissionCondition (limits : TransactionLimits) (permission : Permission) : String :=
  match permission.action with
  | .TRANSFER =>
      "solana.tx.spl_transfers.any(transfer, transfer.amount <= "
        ++ toString limits.perTransaction ++ ")"
  | .SWAP =>
      "solana.tx.instructions.any(instruction, instruction.program_id in [\x279WzDXwBbmkg8ZTbNMqUxvQRAyrZzDsGYdLVL9zYtAWWM\x27])"
  | .STAKE =>
      "solana.tx.instructions.any(instruction, instruction.program_id == \x27Stake11111111111111111111111111111111111111\x27)"
  | .MINT_NFT =>
      "solana.tx.instructions.any(instruction, instruction.program_id == \x27TokenkegQfeZyiNwAJbNbGKPFXCWuBvf9Ss623VQ5DA\x27 && instruction.data[0] == 0x0)"
  | _ => "false"

/-- The fixed instruction-count ceiling clause, pushed first. -/
def instructionCountClause : String := "solana.tx.instructions.count() <= 10"

/-- The parenthesized OR-group of permission clauses, pushed when
scope.permissions is non-empty. -/
def permissionGroupClause (limits : TransactionLimits) (permissions : List Permission) : String :=
  "(" ++ String.intercalate (" || ") (permissions.map (permissionCondition limits)) ++ ")"

/-- The program allow-list clause, pushed when scope.programs is non-empty. -/
def programsClause (programs : List String) : String :=
  "solana.tx.instructions.all(instruction, instruction.program_id in ["
    ++ String.intercalate (", ") (programs.map quoteId) ++ "])"

/-- The token allow-list clause, pushed when scope.tokens is non-empty. -/
def tokensClause (tokens : List String) : String :=
  "solana.tx.spl_transfers.all(transfer, transfer.mint in ["
    ++ String.intercalate (", ") (tokens.map quoteId) ++ "])"

/-- The expiry clause: now() compared against
Math.floor(Date.now() / 1000) + scope.duration, pushed last. -/
def expiryClause (nowSec duration : Int) : String :=
  "now() < " ++ toString (nowSec + duration)

/-- The conditions array built by buildConditionFromScope, in push order;
nowSec models Math.floor(Date.now() / 1000) read at compile time. -/
def buildConditionList (scope : DelegationScope) (nowSec : Int) : List String :=
  [instructionCountClause]
    ++ (if scope.permissions.length > 0 then
          [permissionGroupClause scope.limits scope.permissions]
        else [])
    ++ (if scope.programs.length > 0 then [programsClause scope.programs] else [])
    ++ (if scope.tokens.length > 0 then [tokensClause scope.tokens] else [])
    ++ [expiryClause nowSec scope.duration]

/-- DelegationService.buildConditionFromScope: the clauses joined by the
AND separator. -/
def buildConditionFromScope (scope : DelegationScope) (nowSec : Int) : String :=
  String.intercalate (" && ") (buildConditionList scope nowSec)

/-! ### Agent verification and key generation -/

/-- The result shape of DelegationService.verifyAgent. -/
structure AgentVerification where
  isValid : Bool
  reputation : Option Int
deriving DecidableEq, Repr

/-- DelegationService.verifyAgent: rejects identifiers shorter than 10
characters, otherwise valid with the mock reputation 85. -/
def verifyAgent (agentId : String) : AgentVerification :=
  if agentId.length < 10 then { isValid := false, reputation := none }
  else { isValid := true, reputation := some 85 }

/-- DelegationService.generatePublicKey: the mock key derived from
Date.now(). -/
def generatePublicKey (nowMs : Int) : String :=
  "mock-public-key-" ++ toString nowMs

/-! ### Remote-call environment and trace -/

/-- One remote call issued through the Turnkey api client or the
PolicyService, with the arguments the service passes. -/
inductive RemoteCall
  | createPolicy (organizationId policyName effect consensus condition : String)
  | createApiKey (organizationId userId apiKeyName publicKey curveType : String)
  | deleteApiKey (organizationId apiKeyId : String)
  | deletePolicy (organizationId policyId : String)
deriving DecidableEq, Repr

/-- Outcomes of the remote collaborators: createPolicyResult is the policyId
on success (none models the promise rejecting), createApiKeyResult is the
(apiKeyId, publicKey) pair on success, deleteApiKeyOk says whether the
api-key deletion succeeds (false models the promise rejecting), and
deletePolicyOk says whether the Custody Platform accepts the policy
deletion issued through PolicyService.deletePolicy, which catches its own
failure and returns false instead of rethrowing. -/
structure RemoteEnv where
  createPolicyResult : Option String
  createApiKeyResult : Option (String × Option String)
  deleteApiKeyOk : String → Bool
  deletePolicyOk : String → Bool

/-- True exactly on deletePolicy trace entries. -/
def isDeletePolicyCall : RemoteCall → Bool
  | .deletePolicy _ _ => true
  | _ => false

/-- True exactly on createPolicy trace entries. -/
def isCreatePolicyCall : RemoteCall → Bool
  | .createPolicy _ _ _ _ _ => true
  | _ => false

/-! ### The activeDelegations Map -/

/-- The in-memory registry: insertion-ordered entries, unique keys. -/
abbrev ActiveDelegations := List (String × DelegatedKey)

/-- Map.get. -/
def mapGet (m : ActiveDelegations) (k : String) : Option DelegatedKey :=
  (m.find? (fun e => e.1 == k)).map Prod.snd

/-- Map.set: replaces in place when the key exists, appends otherwise. -/
def mapSet (m : ActiveDelegations) (k : String) (v : DelegatedKey) : ActiveDelegations :=
  if m.any (fun e => e.1 == k) then m.map (fun e => if e.1 == k then (k, v) else e)
  else m ++ [(k, v)]

/-- Map.delete. -/
def mapDelete (m : ActiveDelegations) (k : String) : ActiveDelegations :=
  m.filter (fun e => e.1 != k)

/-! ### DelegationService operations -/

/-- Result of createDelegatedPolicyKey: the (id, publicKey) pair on success
(none models the thrown error), together with the remote calls issued. -/
structure CreateKeyOutcome where
  result : Option (String × String)
  trace : List RemoteCall
deriving Repr

/-- DelegationService.createDelegatedPolicyKey: compiles the condition,
creates the policy through PolicyService.createPolicy with effect
EFFECT_ALLOW and the agent-approver consensus, then creates the API key;
the returned id is keyResponse.apiKeyId (the policyId returned by
createPolicy is discarded). -/
def createDelegatedPolicyKey (env : RemoteEnv) (organizationId agentId : String)
    (scope : DelegationScope) (userId : String) (nowSec nowMs : Int) : CreateKeyOutcome :=
  let condition := buildConditionFromScope scope nowSec
  let createPolicyCall := RemoteCall.createPolicy organizationId
      ("Delegation for agent " ++ agentId) "EFFECT_ALLOW"
      ("approvers.any(user, user.id == \x27" ++ agentId ++ "\x27)") condition
  match env.createPolicyResult with
  | none => { result := none, trace := [createPolicyCall] }
  | some _policyId =>
      let createKeyCall := RemoteCall.createApiKey organizationId agentId
          ("Delegation key for " ++ agentId) (generatePublicKey nowMs) "API_KEY_CURVE_P256"
      match env.createApiKeyResult with
      | none => { result := none, trace := [createPolicyCall, createKeyCall] }
      | some (apiKeyId, publicKey) =>
          { result := some (apiKeyId, publicKey.getD ("")),
            trace := [createPolicyCall, createKeyCall] }

/-- Result of processDelegationRequest: the response, the registry state
afterwards, and the remote calls issued. -/
structure ProcessOutcome where
  response : DelegationResponse
  state : ActiveDelegations
  trace : List RemoteCall
deriving Repr

/-- DelegationService.processDelegationRequest: verify the agent, create the
delegated policy key, then store the DelegatedKey record whose id and
policyId are both policyKey.id and whose expiry is Date.now() plus
scope.duration seconds; any thrown error is caught and turned into a
REJECTED response with the state unchanged. -/
def processDelegationRequest (env : RemoteEnv) (st : ActiveDelegations)
    (request : DelegationRequest) (userId organizationId : String)
    (nowSec nowMs : Int) : ProcessOutcome :=
  let agent := verifyAgent request.agentId
  if !agent.isValid then
    { response := { status := .REJECTED, reason := some ("Invalid or unverified agent"),
                    policyKeyId := none, expiresAt := none },
      state := st, trace := [] }
  else
    let outcome := createDelegatedPolicyKey env organizationId request.agentId
        request.scope userId nowSec nowMs
    match outcome.result with
    | none =>
        { response := { status := .REJECTED, reason := some ("Internal error processing request"),
                        policyKeyId := none, expiresAt := none },
          state := st, trace := outcome.trace }
    | some (policyKeyId, publicKey) =>
        let expiresAt := nowMs + request.scope.duration * 1000
        let delegatedKey : DelegatedKey :=
          { id := policyKeyId, policyId := policyKeyId, agentId := request.agentId,
            publicKey := publicKey, permissions := request.scope.permissions,
            expiresAt := expiresAt, isActive := true,
            quotaUsed := { daily := 0, weekly := 0, monthly := 0 } }
        { response := { status := .APPROVED, reason := none,
                        policyKeyId := some policyKeyId, expiresAt := some expiresAt },
          state := mapSet st policyKeyId delegatedKey, trace := outcome.trace }

/-- Result of revokeDelegation: the returned boolean, the registry state
afterwards, and the remote calls issued. -/
structure RevokeOutcome where
  ok : Bool
  state : ActiveDelegations
  trace : List RemoteCall
deriving Repr

/-- PolicyService.deletePolicy: issues the remote deletion and catches its
own error, returning false rather than rethrowing; true on success. -/
def policyServiceDeletePolicy (env : RemoteEnv) (organizationId policyId : String) :
    Bool × List RemoteCall :=
  (env.deletePolicyOk policyId, [RemoteCall.deletePolicy organizationId policyId])

/-- DelegationService.revokeDelegation: unknown ids return false with no
remote call; otherwise deleteApiKey is issued, and a thrown deleteApiKey
is caught, returning false with the registry unchanged; when deleteApiKey
succeeds, PolicyService.deletePolicy is awaited next, but it swallows its
own failure and its returned boolean is ignored, so the record is removed
and true is returned whether or not the remote policy deletion
succeeded. -/
def revokeDelegation (env : RemoteEnv) (st : ActiveDelegations)
    (delegationId organizationId reason : String) : RevokeOutcome :=
  match mapGet st delegationId with
  | none => { ok := false, state := st, trace := [] }
  | some delegation =>
      let deleteKeyCall := RemoteCall.deleteApiKey organizationId delegationId
      if env.deleteApiKeyOk delegationId then
        let deletePolicyOutcome :=
          policyServiceDeletePolicy env organizationId delegation.policyId
        { ok := true, state := mapDelete st delegationId,
          trace := deleteKeyCall :: deletePolicyOutcome.2 }
      else
        { ok := false, state := st, trace := [deleteKeyCall] }

/-- Result of emergencyRevokeAll. -/
structure EmergencyOutcome where
  revoked : Nat
  failed : Nat
  state : ActiveDelegations
  trace : List RemoteCall
deriving Repr

/-- The loop body of emergencyRevokeAll over the list of delegation ids,
threading the registry state. -/
def emergencyRevokeAllGo (env : RemoteEnv) (organizationId reason : String) :
    List String → ActiveDelegations → EmergencyOutcome
  | [], st => { revoked := 0, failed := 0, state := st, trace := [] }
  | delegationId :: rest, st =>
      let r := revokeDelegation env st delegationId organizationId reason
      let tail := emergencyRevokeAllGo env organizationId reason rest r.state
      if r.ok then
        { revoked := tail.revoked + 1, failed := tail.failed,
          state := tail.state, trace := r.trace ++ tail.trace }
      else
        { revoked := tail.revoked, failed := tail.failed + 1,
          state := tail.state, trace := r.trace ++ tail.trace }

/-- DelegationService.emergencyRevokeAll: iterates over the keys of the
registry (a JS Map for..of visits entries in insertion order, and each
iteration can only delete its own entry, so this equals iterating over the
initial key list), calling revokeDelegation on each and counting
successes and failures. -/
def emergencyRevokeAll (env : RemoteEnv) (st : ActiveDelegations)
    (organizationId userId reason : String) : EmergencyOutcome :=
  emergencyRevokeAllGo env organizationId reason (st.map Prod.fst) st

/-- JS truthiness of the optional organizationId argument: undefined and the
empty string are falsy. -/
def jsTruthy : Option String → Bool
  | none => false
  | some s => !s.isEmpty

/-- DelegationService.getActiveDelegations: with a truthy organizationId the
whole value list is returned as-is; otherwise the list is filtered to
isActive records whose expiresAt is strictly after the current time. -/
def getActiveDelegations (st : ActiveDelegations) (organizationId : Option String)
    (nowMs : Int) : List DelegatedKey :=
  let delegations := st.map Prod.snd
  if jsTruthy organizationId then delegations
  else delegations.filter (fun d => d.isActive && decide (nowMs < d.expiresAt))

/-- DelegationService.isQuotaExceeded: unknown ids count as exceeded;
otherwise any counter at or above its limit trips it, the monthly counter
only when a monthly limit is present. -/
def isQuotaExceeded (st : ActiveDelegations) (delegationId : String)
    (limits : TransactionLimits) : Bool :=
  match mapGet st delegationId with
  | none => true
  | some delegation =>
      decide (delegation.quotaUsed.daily ≥ limits.daily)
        || decide (delegation.quotaUsed.weekly ≥ limits.weekly)
        || (match limits.monthly with
            | some monthly => decide (delegation.quotaUsed.monthly ≥ monthly)
            | none => false)

/-! ### Observers used by the statements -/

/-- Whether the string p is a prefix of s, computed on the char lists. -/
def strStartsWith (p s : String) : Bool := p.data.isPrefixOf s.data

/-! ### Sample data for witnesses and counterexamples -/

/-- The limits of the example scenario in the spec. -/
def sampleLimits : TransactionLimits :=
  { perTransaction := 1000000, daily := 5000000, weekly := 20000000, monthly := none }

/-- A scope whose permissions set is empty. -/
def emptyPermissionsScope : DelegationScope :=
  { permissions := [], programs := [], tokens := [], limits := sampleLimits,
    duration := 3600 }

/-- A scope whose programs list holds the same identifier twice. -/
def dupProgramsScope : DelegationScope :=
  { permissions := [], programs := ["progA", "progA"], tokens := [],
    limits := sampleLimits, duration := 60 }

/-- A scope whose tokens list holds the same mint twice. -/
def dupTokensScope : DelegationScope :=
  { permissions := [], programs := [], tokens := ["mintX", "mintX"],
    limits := sampleLimits, duration := 60 }

/-- Whether revokeDelegation succeeds for a registry entry: only a thrown
deleteApiKey makes it fail, since a failing remote policy deletion is
swallowed inside PolicyService.deletePolicy and its boolean is ignored. -/
def revocationSucceeds (env : RemoteEnv) (e : String × DelegatedKey) : Bool :=
  env.deleteApiKeyOk e.1

/-- An environment in which every remote call succeeds. -/
def envAllOk : RemoteEnv :=
  { createPolicyResult := some ("POL-1"), createApiKeyResult := some ("KEY-1", some ("PK1")),
    deleteApiKeyOk := fun _ => true, deletePolicyOk := fun _ => true }

/-- An environment in which policy creation succeeds but key creation fails. -/
def envKeyFails : RemoteEnv :=
  { createPolicyResult := some ("POL-1"), createApiKeyResult := none,
    deleteApiKeyOk := fun _ => true, deletePolicyOk := fun _ => true }

/-- An environment in which every remote deletion fails. -/
def envAllFail : RemoteEnv :=
  { createPolicyResult := none, createApiKeyResult := none,
    deleteApiKeyOk := fun _ => false, deletePolicyOk := fun _ => false }

/-- An environment in which deleting the API key of delegation D2 throws,
every other api-key deletion succeeds, and every remote policy deletion
fails (which PolicyService.deletePolicy swallows). -/
def envFailD2 : RemoteEnv :=
  { createPolicyResult := none, createApiKeyResult := none,
    deleteApiKeyOk := fun k => k != "D2", deletePolicyOk := fun _ => false }

/-- An inactive, already expired registry record. -/
def staleKey : DelegatedKey :=
  { id := "D1", policyId := "D1", agentId := "agent-0001", publicKey := "pk",
    permissions := [], expiresAt := 500, isActive := false,
    quotaUsed := { daily := 0, weekly := 0, monthly := 0 } }

/-- An active, unexpired registry record. -/
def freshKey : DelegatedKey :=
  { id := "D9", policyId := "D9", agentId := "agent-0009", publicKey := "pk9",
    permissions := [], expiresAt := 99999, isActive := true,
    quotaUsed := { daily := 0, weekly := 0, monthly := 0 } }

/-- Active registry record with id D1. -/
def activeKeyD1 : DelegatedKey :=
  { id := "D1", policyId := "D1", agentId := "agent-0001", publicKey := "pk1",
    permissions := [], expiresAt := 2000000, isActive := true,
    quotaUsed := { daily := 0, weekly := 0, monthly := 0 } }

/-- Active registry record with id D2. -/
def activeKeyD2 : DelegatedKey :=
  { id := "D2", policyId := "D2", agentId := "agent-0002", publicKey := "pk2",
    permissions := [], expiresAt := 2000000, isActive := true,
    quotaUsed := { daily := 0, weekly := 0, monthly := 0 } }

/-- Active registry record with id D3. -/
def activeKeyD3 : DelegatedKey :=
  { id := "D3", policyId := "D3", agentId := "agent-0003", publicKey := "pk3",
    permissions := [], expiresAt := 2000000, isActive := true,
    quotaUsed := { daily := 0, weekly := 0, monthly := 0 } }

/-- A request whose agentId is shorter than the verification threshold. -/
def shortAgentRequest : DelegationRequest :=
  { id := "REQ-1", agentId := "bot-1", agentName := none,
    scope := emptyPermissionsScope, requestedAt := 0 }

/-- A request whose agentId passes verification. -/
def validRequest : DelegationRequest :=
  { id := "REQ-2", agentId := "agent-0001", agentName := none,
    scope := emptyPermissionsScope, requestedAt := 0 }

/-! ### Helper lemmas on prefixes of the emitted clauses -/

lemma isPrefixOf_self_append (p x : List Char) : List.isPrefixOf p (p ++ x) = true := by
  induction p with
  | nil => simp [List.isPrefixOf]
  | cons a as ih =>
    simp only [List.cons_append, List.isPrefixOf]
    simp [ih]

lemma not_isPrefixOf_cons {c d : Char} (cp l : List Char) (h : (c == d) = false) :
    List.isPrefixOf (c :: cp) (d :: l) = false := by
  simp only [List.isPrefixOf]
  simp [h]

/-- A string whose head character differs from the head of p cannot, even
after extension on the right, start with p. -/
lemma strStartsWith_append_head {p a : String} (b : String) (c d : Char)
    (cp da : List Char) (hp : p.data = c :: cp) (ha : a.data = d :: da)
    (h : (c == d) = false) : strStartsWith p (a ++ b) = false := by
  simp only [strStartsWith, String.data_append, hp, ha, List.cons_append]
  exact not_isPrefixOf_cons _ _ h

lemma strStartsWith_self_append (p b : String) : strStartsWith p (p ++ b) = true := by
  simp only [strStartsWith, String.data_append]
  exact isPrefixOf_self_append _ _

lemma now_not_prefix_instructionCount :
    strStartsWith ("now() < ") instructionCountClause = false := by decide

lemma now_not_prefix_permissionGroup (limits : TransactionLimits)
    (permissions : List Permission) :
    strStartsWith ("now() < ") (permissionGroupClause limits permissions) = false := by
  rw [permissionGroupClause, String.append_assoc]
  exact strStartsWith_append_head _ 'n' '(' ("ow() < ".data) [] (by decide) (by decide)
    (by decide)

lemma now_not_prefix_programs (programs : List String) :
    strStartsWith ("now() < ") (programsClause programs) = false := by
  rw [programsClause, String.append_assoc]
  exact strStartsWith_append_head _ 'n' 's' ("ow() < ".data)
    ("olana.tx.instructions.all(instruction, instruction.program_id in [".data)
    (by decide) (by decide) (by decide)

lemma now_not_prefix_tokens (tokens : List String) :
    strStartsWith ("now() < ") (tokensClause tokens) = false := by
  rw [tokensClause, String.append_assoc]
  exact strStartsWith_append_head _ 'n' 's' ("ow() < ".data)
    ("olana.tx.spl_transfers.all(transfer, transfer.mint in [".data)
    (by decide) (by decide) (by decide)

lemma now_prefix_expiry (nowSec duration : Int) :
    strStartsWith ("now() < ") (expiryClause nowSec duration) = true := by
  rw [expiryClause]
  exact strStartsWith_self_append _ _

lemma paren_not_prefix_instructionCount :
    strStartsWith ("(") instructionCountClause = false := by decide

lemma paren_prefix_permissionGroup (limits : TransactionLimits)
    (permissions : List Permission) :
    strStartsWith ("(") (permissionGroupClause limits permissions) = true := by
  rw [permissionGroupClause, String.append_assoc]
  exact strStartsWith_self_append _ _

lemma paren_not_prefix_programs (programs : List String) :
    strStartsWith ("(") (programsClause programs) = false := by
  rw [programsClause, String.append_assoc]
  exact strStartsWith_append_head _ '(' 's' []
    ("olana.tx.instructions.all(instruction, instruction.program_id in [".data)
    (by decide) (by decide) (by decide)

lemma paren_not_prefix_tokens (tokens : List String) :
    strStartsWith ("(") (tokensClause tokens) = false := by
  rw [tokensClause, String.append_assoc]
  exact strStartsWith_append_head _ '(' 's' []
    ("olana.tx.spl_transfers.all(transfer, transfer.mint in [".data)
    (by decide) (by decide) (by decide)

lemma paren_not_prefix_now_append (t : String) :
    strStartsWith ("(") ("now() < " ++ t) = false :=
  strStartsWith_append_head _ '(' 'n' [] ("ow() < ".data) (by decide) (by decide)
    (by decide)

lemma paren_not_prefix_expiry (nowSec duration : Int) :
    strStartsWith ("(") (expiryClause nowSec duration) = false := by
  rw [expiryClause]
  exact strStartsWith_append_head _ '(' 'n' [] ("ow() < ".data) (by decide) (by decide)
    (by decide)

/-! ### Claims about the condition compiler -/

/-- Claim C2: for every Scope, the conditions array built by
buildConditionFromScope (whose AND-join is the compiled condition) holds
exactly one expiry clause, and that clause encodes the absolute timestamp
nowSec + duration, where nowSec is the compile-time clock reading
Math.floor(Date.now() / 1000) (the requestedAt of the spec), not the
duration alone. -/
theorem expiry_clause_unique_and_absolute (scope : DelegationScope) (nowSec : Int) :
    (buildConditionList scope nowSec).filter (fun c => strStartsWith ("now() < ") c)
      = ["now() < " ++ toString (nowSec + scope.duration)] := by
  unfold buildConditionList
  split_ifs <;>
    simp [List.filter_append, now_not_prefix_instructionCount,
      now_not_prefix_permissionGroup, now_not_prefix_programs,
      now_not_prefix_tokens, now_prefix_expiry, expiryClause,
      strStartsWith_self_append]

/-- Claim C1 (amended): the compiled conditions array holds a clause that
starts with an opening parenthesis, which only the permission group does,
exactly when the permissions set is non-empty; an empty permissions set
yields no permission group at all rather than an unsatisfiable one. -/
theorem permission_group_present_iff_permissions_nonempty
    (scope : DelegationScope) (nowSec : Int) :
    (buildConditionList scope nowSec).filter (fun c => strStartsWith ("(") c)
      = (if scope.permissions.length > 0 then
          [permissionGroupClause scope.limits scope.permissions]
        else []) := by
  unfold buildConditionList
  split_ifs <;>
    simp_all [List.filter_append, paren_not_prefix_instructionCount,
      paren_prefix_permissionGroup, paren_not_prefix_programs,
      paren_not_prefix_tokens, paren_not_prefix_expiry, expiryClause,
      paren_not_prefix_now_append]

/-- Claim C1 counterexample: the empty-permissions scope compiles to just the
instruction-count ceiling and the expiry clause; no permission group is
present in the compiled condition, so no clause of it is an unsatisfiable
permission group. -/
theorem emptyPermissions_group_absent_cex :
    buildConditionFromScope emptyPermissionsScope 1000
        = "solana.tx.instructions.count() <= 10 && now() < 4600"
      ∧ (buildConditionList emptyPermissionsScope 1000).filter
          (fun c => strStartsWith ("(") c) = [] := by
  constructor
  · decide
  · decide

/-! ### Claims about allow-list emission (C5) -/

lemma quoteId_injective : Function.Injective quoteId := by
  intro p q h
  have h2 := congrArg String.data h
  simp only [quoteId, String.data_append, List.append_assoc] at h2
  have h3 := List.append_right_injective _ h2
  have h4 := List.append_left_injective _ h3
  exact String.ext h4

/-- Claim C5 (amended): the allow-list clauses embed the programs and tokens
lists verbatim, with no de-duplication: the emitted clause is the quoted
join of exactly the given list, and quoting is injective entry-wise, so a
duplicated identifier is emitted as many times as it occurs. -/
theorem allowlists_emitted_verbatim (scope : DelegationScope) (nowSec : Int) :
    (scope.programs ≠ [] → programsClause scope.programs ∈ buildConditionList scope nowSec)
    ∧ (scope.tokens ≠ [] → tokensClause scope.tokens ∈ buildConditionList scope nowSec)
    ∧ ∀ ps qs : List String, ps.map quoteId = qs.map quoteId ↔ ps = qs := by
  refine ⟨fun h => ?_, fun h => ?_, fun ps qs =>
    ⟨fun h => List.map_injective_iff.mpr quoteId_injective h, fun h => by rw [h]⟩⟩
  · have hl : 0 < scope.programs.length := List.length_pos.mpr h
    simp [buildConditionList, hl]
  · have hl : 0 < scope.tokens.length := List.length_pos.mpr h
    simp [buildConditionList, hl]

/-- Claim C5 witness: the verbatim-emission theorem applied to the two
duplicate-bearing scopes. -/
theorem allowlists_emitted_verbatim_witness :
    programsClause dupProgramsScope.programs ∈ buildConditionList dupProgramsScope 40
    ∧ tokensClause dupTokensScope.tokens ∈ buildConditionList dupTokensScope 40 :=
  ⟨(allowlists_emitted_verbatim dupProgramsScope 40).1 (by decide),
   (allowlists_emitted_verbatim dupTokensScope 40).2.1 (by decide)⟩

/-- Claim C5 counterexample: a scope whose programs list holds the same
identifier twice compiles to a membership list in which that identifier
appears twice, not at most once. -/
theorem duplicate_programs_emitted_cex :
    buildConditionFromScope dupProgramsScope 40
      = "solana.tx.instructions.count() <= 10 && solana.tx.instructions.all(instruction, instruction.program_id in [\x27progA\x27, \x27progA\x27]) && now() < 100" := by
  decide

/-! ### Claim about the quota check (C8) -/

/-- Claim C8: isQuotaExceeded is true exactly when the id is unknown
(fail-closed) or some tracked counter has reached its limit, the monthly
counter counting only when a monthly limit was specified; being a pure
observer of the registry, it mutates no state. -/
theorem isQuotaExceeded_iff (st : ActiveDelegations) (delegationId : String)
    (limits : TransactionLimits) :
    isQuotaExceeded st delegationId limits = true
      ↔ mapGet st delegationId = none
        ∨ ∃ d, mapGet st delegationId = some d
            ∧ (limits.daily ≤ d.quotaUsed.daily
               ∨ limits.weekly ≤ d.quotaUsed.weekly
               ∨ ∃ m, limits.monthly = some m ∧ m ≤ d.quotaUsed.monthly) := by
  unfold isQuotaExceeded
  cases hg : mapGet st delegationId with
  | none => simp [hg]
  | some d =>
    cases hm : limits.monthly with
    | none => simp [hm, ge_iff_le]
    | some m => simp [hm, ge_iff_le, or_assoc]

/-! ### Claims about getActiveDelegations (C6) -/

/-- Claim C6 (amended): with no namespace argument the result is filtered to
active, unexpired records; with a truthy namespace argument the whole
registry value list is returned unfiltered. -/
theorem getActiveDelegations_filter_spec (st : ActiveDelegations) (nowMs : Int) :
    (∀ d ∈ getActiveDelegations st none nowMs, d.isActive = true ∧ nowMs < d.expiresAt)
    ∧ ∀ o : Option String, jsTruthy o = true →
        getActiveDelegations st o nowMs = st.map Prod.snd := by
  constructor
  · intro d hd
    have hd2 : d ∈ (st.map Prod.snd).filter
        (fun d => d.isActive && decide (nowMs < d.expiresAt)) := by
      simpa [getActiveDelegations, jsTruthy] using hd
    have h2 := (List.mem_filter.mp hd2).2
    simpa using h2
  · intro o ho
    simp [getActiveDelegations, ho]

/-- Claim C6 witness: the filter theorem applied at a singleton registry, and
the unfiltered branch applied at a namespace argument. -/
theorem getActiveDelegations_filter_spec_witness :
    (freshKey.isActive = true ∧ (0 : Int) < freshKey.expiresAt)
    ∧ getActiveDelegations [("D1", staleKey)] (some ("org-1")) 0 = [staleKey] :=
  ⟨(getActiveDelegations_filter_spec [("D9", freshKey)] 0).1 freshKey (by decide),
   by
    have h := (getActiveDelegations_filter_spec [("D1", staleKey)] 0).2
      (some ("org-1")) (by decide)
    simpa using h⟩

/-- Claim C6 counterexample: with an organization argument supplied, an
inactive and already expired record is returned anyway, because that code
path skips the active-and-unexpired filter. -/
theorem getActiveDelegations_org_unfiltered_cex :
    getActiveDelegations [("D1", staleKey)] (some ("org-1")) 1000 = [staleKey]
    ∧ staleKey.isActive = false ∧ staleKey.expiresAt < 1000 := by
  refine ⟨?_, ?_, ?_⟩ <;> decide

/-! ### Claim about rejection of unverified agents (C7) -/

/-- Claim C7: a request whose agentId is shorter than the 10-character
verification threshold is rejected with the invalid-agent reason, with no
remote call issued and the registry unchanged. -/
theorem invalid_agent_rejected_without_calls (env : RemoteEnv) (st : ActiveDelegations)
    (request : DelegationRequest) (userId organizationId : String) (nowSec nowMs : Int)
    (h : request.agentId.length < 10) :
    processDelegationRequest env st request userId organizationId nowSec nowMs
      = { response := { status := .REJECTED, reason := some ("Invalid or unverified agent"),
                        policyKeyId := none, expiresAt := none },
          state := st, trace := [] } := by
  simp [processDelegationRequest, verifyAgent, h]

/-- Claim C7 witness: the rejection theorem applied to a request with the
five-character agentId bot-1 against the all-success environment. -/
theorem invalid_agent_rejected_without_calls_witness :
    shortAgentRequest.agentId.length < 10
    ∧ processDelegationRequest envAllOk [] shortAgentRequest ("user-1") ("org-1") 1000 1000000
        = { response := { status := .REJECTED, reason := some ("Invalid or unverified agent"),
                          policyKeyId := none, expiresAt := none },
            state := [], trace := [] } :=
  ⟨by decide, invalid_agent_rejected_without_calls envAllOk [] shortAgentRequest
    "user-1" "org-1" 1000 1000000 (by decide)⟩

/-! ### Lemmas about the registry map operations -/

lemma mapGet_cons_self (k : String) (d : DelegatedKey) (t : ActiveDelegations) :
    mapGet ((k, d) :: t) k = some d := by
  unfold mapGet
  rw [List.find?_cons_of_pos _ (by simp)]
  rfl

lemma mapGet_append_right (pre l : ActiveDelegations) (k : String)
    (h : ∀ e ∈ pre, (e.1 == k) = false) :
    mapGet (pre ++ l) k = mapGet l k := by
  unfold mapGet
  rw [List.find?_append]
  have hnone : pre.find? (fun e => e.1 == k) = none :=
    List.find?_eq_none.mpr (fun x hx => by simp [h x hx])
  rw [hnone]
  rfl

lemma mapGet_mapDelete (m : ActiveDelegations) (k : String) :
    mapGet (mapDelete m k) k = none := by
  unfold mapGet mapDelete
  have hnone : (m.filter (fun e => e.1 != k)).find? (fun e => e.1 == k) = none := by
    apply List.find?_eq_none.mpr
    intro x hx
    have hq := (List.mem_filter.mp hx).2
    simp only [bne_iff_ne, ne_eq] at hq
    simp [hq]
  simp [hnone]

lemma find?_map_replace (m : ActiveDelegations) (k : String) (v : DelegatedKey)
    (h : m.any (fun e => e.1 == k) = true) :
    (m.map (fun e => if e.1 == k then (k, v) else e)).find? (fun e => e.1 == k)
      = some (k, v) := by
  induction m with
  | nil => simp at h
  | cons a t ih =>
    by_cases ha : (a.1 == k) = true
    · simp only [List.map_cons, ha, if_true]
      rw [List.find?_cons_of_pos _ (by simp)]
    · simp only [List.any_cons, Bool.or_eq_true] at h
      rcases h with h | h
      · exact absurd h ha
      · simp only [List.map_cons, ha, if_false]
        rw [List.find?_cons_of_neg _ (by simp [ha]), ih h]

lemma find?_append_not_found (m : ActiveDelegations) (k : String) (v : DelegatedKey)
    (h : m.any (fun e => e.1 == k) = false) :
    (m ++ [(k, v)]).find? (fun e => e.1 == k) = some (k, v) := by
  rw [List.find?_append]
  have hnone : m.find? (fun e => e.1 == k) = none := by
    apply List.find?_eq_none.mpr
    intro x hx
    simp only [List.any_eq_false] at h
    simpa using h x hx
  rw [hnone, List.find?_cons_of_pos _ (by simp)]
  rfl

lemma mapGet_mapSet_self (m : ActiveDelegations) (k : String) (v : DelegatedKey) :
    mapGet (mapSet m k v) k = some v := by
  unfold mapGet mapSet
  by_cases h : m.any (fun e => e.1 == k) = true
  · simp only [h, if_true, find?_map_replace m k v h]
    rfl
  · have hf : m.any (fun e => e.1 == k) = false := Bool.eq_false_iff.mpr h
    simp only [hf, Bool.false_eq_true, if_false, find?_append_not_found m k v hf]
    rfl

/-! ### Claims about revokeDelegation (C9) -/

/-- Claim C9: revoking an unknown id returns false with no remote call and no
state change; revoking a present id with both remote deletions succeeding
returns true, and an immediate second call on the same id returns false
(again with no remote call and no further state change). -/
theorem revokeDelegation_unknown_and_twice (env : RemoteEnv) (st : ActiveDelegations)
    (delegationId organizationId reason : String) :
    (mapGet st delegationId = none →
      revokeDelegation env st delegationId organizationId reason
        = { ok := false, state := st, trace := [] })
    ∧ (∀ d, mapGet st delegationId = some d →
        env.deleteApiKeyOk delegationId = true →
        env.deletePolicyOk d.policyId = true →
        (revokeDelegation env st delegationId organizationId reason).ok = true
        ∧ revokeDelegation env
            (revokeDelegation env st delegationId organizationId reason).state
            delegationId organizationId reason
          = { ok := false,
              state := (revokeDelegation env st delegationId organizationId reason).state,
              trace := [] }) := by
  constructor
  · intro h
    unfold revokeDelegation
    simp [h]
  · intro d hd hak hap
    have h1 : revokeDelegation env st delegationId organizationId reason
        = { ok := true, state := mapDelete st delegationId,
            trace := [RemoteCall.deleteApiKey organizationId delegationId,
                      RemoteCall.deletePolicy organizationId d.policyId] } := by
      simp [revokeDelegation, policyServiceDeletePolicy, hd, hak]
    refine ⟨by rw [h1], ?_⟩
    rw [h1]
    simp [revokeDelegation, mapGet_mapDelete]

/-- Claim C9 witness: the theorem applied to the empty registry with the
unknown id DX, and to a singleton registry with id D1 under the
all-success environment. -/
theorem revokeDelegation_unknown_and_twice_witness :
    (mapGet ([] : ActiveDelegations) "DX" = none
      ∧ revokeDelegation envAllOk [] "DX" "org-1" "cleanup"
          = { ok := false, state := [], trace := [] })
    ∧ (mapGet [("D1", activeKeyD1)] "D1" = some activeKeyD1
      ∧ (revokeDelegation envAllOk [("D1", activeKeyD1)] "D1" "org-1" "cleanup").ok = true
      ∧ revokeDelegation envAllOk
          (revokeDelegation envAllOk [("D1", activeKeyD1)] "D1" "org-1" "cleanup").state
          ("D1") "org-1" "cleanup"
        = { ok := false,
            state := (revokeDelegation envAllOk [("D1", activeKeyD1)] "D1" "org-1"
              "cleanup").state,
            trace := [] }) := by
  refine ⟨⟨by decide,
    (revokeDelegation_unknown_and_twice envAllOk [] "DX" "org-1" "cleanup").1
      (by decide)⟩, by decide, ?_, ?_⟩
  · exact ((revokeDelegation_unknown_and_twice envAllOk [("D1", activeKeyD1)] "D1"
      "org-1" "cleanup").2 activeKeyD1 (by decide) (by decide) (by decide)).1
  · exact ((revokeDelegation_unknown_and_twice envAllOk [("D1", activeKeyD1)] "D1"
      "org-1" "cleanup").2 activeKeyD1 (by decide) (by decide) (by decide)).2

/-! ### Claim about the stored identifiers (C10) -/

/-- Claim C10: an approved request stores a record whose id and policyId both
equal the apiKeyId returned by key creation (the policyId returned by
policy creation is discarded), and revokeDelegation consequently issues
its deletePolicy call with that apiKeyId as the policy id. -/
theorem stored_ids_equal_apiKeyId (env : RemoteEnv) (st : ActiveDelegations)
    (request : DelegationRequest) (userId organizationId : String) (nowSec nowMs : Int)
    (pid apiKeyId : String) (pk : Option String)
    (hp : env.createPolicyResult = some pid)
    (hk : env.createApiKeyResult = some (apiKeyId, pk))
    (hv : 10 ≤ request.agentId.length) :
    ((mapGet (processDelegationRequest env st request userId organizationId nowSec
        nowMs).state apiKeyId).map (fun dk => (dk.id, dk.policyId)))
      = some (apiKeyId, apiKeyId)
    ∧ (processDelegationRequest env st request userId organizationId nowSec
        nowMs).response.policyKeyId = some apiKeyId
    ∧ ∀ (env2 : RemoteEnv) (reason : String), env2.deleteApiKeyOk apiKeyId = true →
        (revokeDelegation env2 (processDelegationRequest env st request userId
            organizationId nowSec nowMs).state apiKeyId organizationId reason).trace
          = [RemoteCall.deleteApiKey organizationId apiKeyId,
             RemoteCall.deletePolicy organizationId apiKeyId] := by
  have hnot : ¬ request.agentId.length < 10 := by omega
  refine ⟨?_, ?_, ?_⟩
  · simp [processDelegationRequest, createDelegatedPolicyKey, verifyAgent, hnot, hp, hk,
      mapGet_mapSet_self]
  · simp [processDelegationRequest, createDelegatedPolicyKey, verifyAgent, hnot, hp, hk]
  · intro env2 reason h2
    simp [processDelegationRequest, createDelegatedPolicyKey, verifyAgent, hnot, hp,
      hk, revokeDelegation, policyServiceDeletePolicy, mapGet_mapSet_self, h2]

/-- Claim C10 witness: under an environment whose policy creation returns
POL-1 and whose key creation returns KEY-1, the stored record carries
KEY-1 (not POL-1) in both id fields, and the revocation trace deletes
policy KEY-1. -/
theorem stored_ids_equal_apiKeyId_witness :
    ("POL-1" : String) ≠ "KEY-1"
    ∧ ((mapGet (processDelegationRequest envAllOk [] validRequest ("user-1") "org-1"
        1000 1000000).state ("KEY-1")).map (fun dk => (dk.id, dk.policyId)))
        = some ("KEY-1", "KEY-1")
    ∧ (revokeDelegation envAllOk (processDelegationRequest envAllOk [] validRequest
        "user-1" "org-1" 1000 1000000).state ("KEY-1") "org-1" "cleanup").trace
        = [RemoteCall.deleteApiKey ("org-1") "KEY-1",
           RemoteCall.deletePolicy ("org-1") "KEY-1"] := by
  have h := stored_ids_equal_apiKeyId envAllOk [] validRequest ("user-1") "org-1"
    1000 1000000 "POL-1" "KEY-1" (some ("PK1")) rfl rfl (by decide)
  exact ⟨by decide, h.1, h.2.2 envAllOk ("cleanup") rfl⟩

/-! ### Claims about rollback of half-created delegations (C4) -/

/-- Claim C4 (amended): when policy creation succeeds and the subsequent key
creation fails, processDelegationRequest returns REJECTED with the
registry unchanged, having issued exactly one policy-creation call and no
compensating policy deletion: the remote policy is left dangling. -/
theorem processDelegationRequest_dangling_policy (env : RemoteEnv)
    (st : ActiveDelegations) (request : DelegationRequest)
    (userId organizationId : String) (nowSec nowMs : Int) (pid : String)
    (hp : env.createPolicyResult = some pid)
    (hk : env.createApiKeyResult = none)
    (hv : 10 ≤ request.agentId.length) :
    (processDelegationRequest env st request userId organizationId nowSec
        nowMs).response.status = DelegationStatus.REJECTED
    ∧ (processDelegationRequest env st request userId organizationId nowSec
        nowMs).state = st
    ∧ ((processDelegationRequest env st request userId organizationId nowSec
        nowMs).trace.filter isCreatePolicyCall).length = 1
    ∧ (processDelegationRequest env st request userId organizationId nowSec
        nowMs).trace.filter isDeletePolicyCall = [] := by
  have hnot : ¬ request.agentId.length < 10 := by omega
  refine ⟨?_, ?_, ?_, ?_⟩ <;>
    simp [processDelegationRequest, createDelegatedPolicyKey, verifyAgent, hnot, hp, hk,
      isCreatePolicyCall, isDeletePolicyCall]

/-- Claim C4 witness: the dangling-policy theorem applied to the environment
whose key creation fails, at a verified request. -/
theorem processDelegationRequest_dangling_policy_witness :
    envKeyFails.createPolicyResult = some ("POL-1")
    ∧ envKeyFails.createApiKeyResult = none
    ∧ 10 ≤ validRequest.agentId.length
    ∧ ((processDelegationRequest envKeyFails [] validRequest ("user-1") "org-1" 1000
        1000000).trace.filter isCreatePolicyCall).length = 1
    ∧ (processDelegationRequest envKeyFails [] validRequest ("user-1") "org-1" 1000
        1000000).trace.filter isDeletePolicyCall = [] :=
  ⟨rfl, rfl, by decide,
   (processDelegationRequest_dangling_policy envKeyFails [] validRequest ("user-1")
      "org-1" 1000 1000000 "POL-1" rfl rfl (by decide)).2.2.1,
   (processDelegationRequest_dangling_policy envKeyFails [] validRequest ("user-1")
      "org-1" 1000 1000000 "POL-1" rfl rfl (by decide)).2.2.2⟩

/-- Claim C4 counterexample: a concrete run in which the remote policy is
created, the key creation then fails, and the returned REJECTED outcome
carries a trace holding the createPolicy call but no deletePolicy call,
while no Delegation record was stored: the created policy is not revoked
before the REJECTED result is returned. -/
theorem processDelegationRequest_no_rollback_cex :
    (processDelegationRequest envKeyFails [] validRequest ("user-1") "org-1" 1000
        1000000).response.status = DelegationStatus.REJECTED
    ∧ (processDelegationRequest envKeyFails [] validRequest ("user-1") "org-1" 1000
        1000000).trace
        = [RemoteCall.createPolicy ("org-1") "Delegation for agent agent-0001"
             "EFFECT_ALLOW" "approvers.any(user, user.id == \x27agent-0001\x27)"
             (buildConditionFromScope emptyPermissionsScope 1000),
           RemoteCall.createApiKey ("org-1") "agent-0001" "Delegation key for agent-0001"
             "mock-public-key-1000000" "API_KEY_CURVE_P256"]
    ∧ (processDelegationRequest envKeyFails [] validRequest ("user-1") "org-1" 1000
        1000000).state = [] := by
  refine ⟨?_, ?_, ?_⟩ <;> decide

/-! ### Claims about emergencyRevokeAll (C3) -/

lemma emergencyRevokeAllGo_spec (env : RemoteEnv) (organizationId reason : String) :
    ∀ (rest pre : ActiveDelegations),
      (rest.map Prod.fst).Nodup →
      (∀ k ∈ rest.map Prod.fst, ∀ e ∈ pre, (e.1 == k) = false) →
      (emergencyRevokeAllGo env organizationId reason (rest.map Prod.fst)
          (pre ++ rest)).revoked
          = (rest.filter (fun e => revocationSucceeds env e)).length
      ∧ (emergencyRevokeAllGo env organizationId reason (rest.map Prod.fst)
          (pre ++ rest)).failed
          = (rest.filter (fun e => ! revocationSucceeds env e)).length
      ∧ (emergencyRevokeAllGo env organizationId reason (rest.map Prod.fst)
          (pre ++ rest)).state
          = pre ++ rest.filter (fun e => ! revocationSucceeds env e) := by
  intro rest
  induction rest with
  | nil => intro pre _ _; simp [emergencyRevokeAllGo]
  | cons a t ih =>
    intro pre hnd hdisj
    obtain ⟨k, d⟩ := a
    simp only [List.map_cons, List.nodup_cons] at hnd
    obtain ⟨hk, hndt⟩ := hnd
    have hpre_k : ∀ e ∈ pre, (e.1 == k) = false := by
      intro e he
      exact hdisj k (by simp) e he
    have hget : mapGet (pre ++ (k, d) :: t) k = some d := by
      rw [mapGet_append_right pre _ k hpre_k, mapGet_cons_self]
    by_cases hok : revocationSucceeds env (k, d) = true
    · have hak : env.deleteApiKeyOk k = true := by
        simpa [revocationSucceeds] using hok
      have hrok : (revokeDelegation env (pre ++ (k, d) :: t) k organizationId
          reason).ok = true := by
        simp [revokeDelegation, hget, hak]
      have hrst : (revokeDelegation env (pre ++ (k, d) :: t) k organizationId
          reason).state = pre ++ t := by
        simp only [revokeDelegation, hget, hak, if_true]
        have h1 : pre.filter (fun e => e.1 != k) = pre :=
          List.filter_eq_self.mpr (fun e he => by
            simp only [bne_iff_ne, ne_eq]
            intro hc
            exact absurd (hpre_k e he) (by simp [hc]))
        have h2 : t.filter (fun e => e.1 != k) = t :=
          List.filter_eq_self.mpr (fun e he => by
            simp only [bne_iff_ne, ne_eq]
            intro hc
            exact hk (hc ▸ List.mem_map_of_mem Prod.fst he))
        simp [mapDelete, List.filter_append, h1, h2, List.filter_cons]
      obtain ⟨ht1, ht2, ht3⟩ := ih pre hndt
        (fun kk hkk e he => hdisj kk (List.mem_cons_of_mem _ hkk) e he)
      refine ⟨?_, ?_, ?_⟩ <;>
        · simp only [List.map_cons, emergencyRevokeAllGo, hrok, hrst, if_true]
          simp [List.filter_cons, hok, ht1, ht2, ht3]
    · have hok' : revocationSucceeds env (k, d) = false := Bool.eq_false_iff.mpr hok
      have h1 : env.deleteApiKeyOk k = false := by
        simpa [revocationSucceeds] using hok'
      have hrev : (revokeDelegation env (pre ++ (k, d) :: t) k organizationId
            reason).ok = false
          ∧ (revokeDelegation env (pre ++ (k, d) :: t) k organizationId
            reason).state = pre ++ (k, d) :: t := by
        constructor <;> simp [revokeDelegation, hget, h1]
      have hdisj' : ∀ kk ∈ t.map Prod.fst, ∀ e ∈ pre ++ [(k, d)], (e.1 == kk) = false := by
        intro kk hkk e he
        rcases List.mem_append.mp he with h | h
        · exact hdisj kk (List.mem_cons_of_mem _ hkk) e h
        · have he2 : e = (k, d) := by simpa using h
          subst he2
          refine beq_eq_false_iff_ne.mpr (fun hkkk => hk ?_)
          have hkkk2 : k = kk := hkkk
          exact hkkk2 ▸ hkk
      obtain ⟨ht1, ht2, ht3⟩ := ih (pre ++ [(k, d)]) hndt hdisj'
      simp only [List.append_assoc, List.singleton_append] at ht1 ht2 ht3
      refine ⟨?_, ?_, ?_⟩ <;>
        · simp only [List.map_cons, emergencyRevokeAllGo, hrev.1, hrev.2,
            Bool.false_eq_true, if_false]
          simp [List.filter_cons, hok', ht1, ht2, ht3]

/-- Claim C3 (amended): emergencyRevokeAll never aborts: it attempts every
delegation and returns revoked = N - M and failed = M where M is the
number of entries whose deleteApiKey call throws (a failing remote policy
deletion is swallowed inside PolicyService.deletePolicy and does not make
revocation fail); it removes from the registry only the N - M entries
whose revocation succeeded, the M failed entries remain in the active
set. -/
theorem emergencyRevokeAll_counts_and_state (env : RemoteEnv) (st : ActiveDelegations)
    (organizationId userId reason : String) (hnd : (st.map Prod.fst).Nodup) :
    (emergencyRevokeAll env st organizationId userId reason).revoked
        = st.length - (emergencyRevokeAll env st organizationId userId reason).failed
    ∧ (emergencyRevokeAll env st organizationId userId reason).failed
        = (st.filter (fun e => ! revocationSucceeds env e)).length
    ∧ (emergencyRevokeAll env st organizationId userId reason).revoked
        + (emergencyRevokeAll env st organizationId userId reason).failed = st.length
    ∧ (emergencyRevokeAll env st organizationId userId reason).state
        = st.filter (fun e => ! revocationSucceeds env e) := by
  have h := emergencyRevokeAllGo_spec env organizationId reason st [] hnd
    (fun _ _ _ he => absurd he (List.not_mem_nil _))
  simp only [List.nil_append] at h
  obtain ⟨h1, h2, h3⟩ := h
  have hlen := List.length_eq_length_filter_add (l := st)
    (fun e => revocationSucceeds env e)
  unfold emergencyRevokeAll
  rw [h1, h2, h3]
  have hlen2 : st.length
      = (st.filter (fun e => revocationSucceeds env e)).length
        + (st.filter (fun e => ! revocationSucceeds env e)).length := hlen
  refine ⟨by omega, rfl, by omega, rfl⟩

/-- Claim C3 witness: three active delegations of which the api-key deletion
of D2 throws, in an environment where every remote policy deletion fails
(and is swallowed), give revoked = 2, failed = 1, and a final registry
holding exactly the failed entry D2: D1 and D3 are removed and counted as
revoked although their remote policy deletions failed. -/
theorem emergencyRevokeAll_counts_and_state_witness :
    (emergencyRevokeAll envFailD2 [("D1", activeKeyD1), ("D2", activeKeyD2),
        ("D3", activeKeyD3)] "org-1" "user-1" "kill").revoked = 2
    ∧ (emergencyRevokeAll envFailD2 [("D1", activeKeyD1), ("D2", activeKeyD2),
        ("D3", activeKeyD3)] "org-1" "user-1" "kill").failed = 1
    ∧ (emergencyRevokeAll envFailD2 [("D1", activeKeyD1), ("D2", activeKeyD2),
        ("D3", activeKeyD3)] "org-1" "user-1" "kill").state
        = [("D2", activeKeyD2)] := by
  have h := emergencyRevokeAll_counts_and_state envFailD2
    [("D1", activeKeyD1), ("D2", activeKeyD2), ("D3", activeKeyD3)]
    "org-1" "user-1" "kill" (by decide)
  refine ⟨?_, ?_, ?_⟩
  · rw [h.1, h.2.1]
    decide
  · rw [h.2.1]
    decide
  · rw [h.2.2.2]
    decide

/-- Claim C3 counterexample: with a single active delegation whose api-key
deletion throws, emergencyRevokeAll reports failed = 1 but leaves the
record in the active set instead of removing it. -/
theorem emergencyRevokeAll_remote_failure_keeps_record_cex :
    (emergencyRevokeAll envAllFail [("D1", activeKeyD1)] "org-1" "user-1"
        "kill").revoked = 0
    ∧ (emergencyRevokeAll envAllFail [("D1", activeKeyD1)] "org-1" "user-1"
        "kill").failed = 1
    ∧ (emergencyRevokeAll envAllFail [("D1", activeKeyD1)] "org-1" "user-1"
        "kill").state = [("D1", activeKeyD1)] := by
  refine ⟨?_, ?_, ?_⟩ <;> decide

end ArloWallet
